import Mathlib

/-!
Verification development for the domain-based SSL-certificate crawler.

The repository contains three iterations of the crawler
(`src/ssl-certificates-crawler/domain-based-crawler/src/main-v1.py`,
`main-v2.py`, `main-v3.py`).  All three coordinate workers through a
MongoDB collection holding one document per domain.  We embed the store
as a `List Task` (the unique index on `domain` makes `domain` the stable
key standing in for `_id`), timestamps as `Nat`, and each MongoDB
conditional update as a pure function on the store.  A single
`find_one_and_update` is one atomic step, so interleavings are sequences
of these functions.
-/

namespace Crawler

/-- Generic store update: apply `f` to every record matching `p`
(faithful to a Mongo `update_one` keyed by a uniquely-indexed field,
where at most one record matches). -/
def updateWhere {α : Type} (p : α → Bool) (f : α → α) (s : List α) : List α :=
  s.map fun t => if p t then f t else t

/-- Statuses used by `main-v2.py` and `main-v3.py`. -/
inductive Status where
  | pending
  | processing
  | completed
  | failed
deriving DecidableEq

namespace V3

/-- Task document of `main-v3.py` (`domain_status` collection).
`load_csv_if_empty` seeds `domain`, `status`, `attempt_count`,
`last_heartbeat`, `worker_id`; the other fields are added by later
updates.  Note the collection stores no eligibility timestamp. -/
structure Task where
  domain : String
  status : Status
  attempt_count : Nat
  worker_id : Option String
  last_heartbeat : Option Nat
  started_at : Option Nat := none
  last_error : Option String := none
  error : Option String := none
  completed_at : Option Nat := none
  failed_at : Option Nat := none
deriving DecidableEq

/-- CONFIG MAX_RETRIES in `main-v3.py`. -/
def MAX_RETRIES : Nat := 3

/-- CONFIG RETRY_DELAYS in `main-v3.py`. -/
def RETRY_DELAYS : List Nat := [5, 10, 15]

/-- CONFIG RETRY_ENABLED in `main-v3.py`. -/
def RETRY_ENABLED : Bool := true

/-- CONFIG STALE_THRESHOLD in `main-v3.py`. -/
def STALE_THRESHOLD : Nat := 60

/-- Lookup by the unique key `domain` (Mongo `find_one` on the indexed field). -/
def getTask (s : List Task) (d : String) : Option Task :=
  s.find? fun t => t.domain == d

/-- Filter of the worker claim in `main-v3.py` `worker_thread`:
only `status == "pending"` — no time condition. -/
def claimFilter (t : Task) : Bool :=
  t.status == Status.pending

/-- The `sort=[("attempt_count", ASCENDING)]` of the claim: keep the
record with the smaller `attempt_count`, first record wins ties. -/
def pickMinAttempt (t u : Task) : Task :=
  if u.attempt_count < t.attempt_count then u else t

/-- Document selected by the claim's `find_one_and_update`. -/
def selectClaim (s : List Task) : Option Task :=
  match s.filter claimFilter with
  | [] => none
  | t :: ts => some (ts.foldl pickMinAttempt t)

/-- The `$set` of the claim in `worker_thread`. -/
def applyClaim (w : String) (now : Nat) (t : Task) : Task :=
  { t with status := Status.processing, worker_id := some w,
           started_at := some now, last_heartbeat := some now }

/-- `find_one_and_update` claim of `worker_thread` (main-v3.py lines
207-219), returning the post-update document (`ReturnDocument.AFTER`). -/
def claim (w : String) (now : Nat) (s : List Task) : Option Task × List Task :=
  match selectClaim s with
  | none => (none, s)
  | some t =>
      (some (applyClaim w now t),
       updateWhere (fun u => u.domain == t.domain) (applyClaim w now) s)

/-- Heartbeat refresh in `worker_thread` (lines 232 and 236):
`update_one({"_id": task["_id"]}, {"$set": {"last_heartbeat": now}})`,
keyed by `_id` only, no status or worker guard. -/
def heartbeatById (d : String) (now : Nat) (s : List Task) : List Task :=
  updateWhere (fun u => u.domain == d)
    (fun t => { t with last_heartbeat := some now }) s

/-- Success update in `worker_thread` (lines 247-250): sets
`status = "completed"`, `completed_at`, `error = None`; keyed by `_id`
only, `worker_id` is neither checked nor cleared. -/
def completeById (d : String) (now : Nat) (s : List Task) : List Task :=
  updateWhere (fun u => u.domain == d)
    (fun t => { t with status := Status.completed, completed_at := some now,
                       error := none }) s

/-- Retry update in `worker_thread` (lines 274-284): back to `pending`,
stores the incremented `attempt_count`, clears `worker_id`; keyed by
`_id` only, and writes no eligibility timestamp. -/
def retryById (d : String) (attempts : Nat) (err : String) (s : List Task) : List Task :=
  updateWhere (fun u => u.domain == d)
    (fun t => { t with status := Status.pending, attempt_count := attempts,
                       last_error := some err, worker_id := none }) s

/-- Permanent-failure update in `worker_thread` (lines 290-300): note
`worker_id` is not cleared here. -/
def failById (d : String) (attempts : Nat) (err : String) (now : Nat) (s : List Task) : List Task :=
  updateWhere (fun u => u.domain == d)
    (fun t => { t with status := Status.failed, attempt_count := attempts,
                       last_error := some err, failed_at := some now }) s

/-- Delay chosen in the retry branch of `worker_thread` (lines 264-269):
`RETRY_DELAYS[attempts - 1]`, clamped to the last entry. -/
def retryDelaySec (attempts : Nat) : Nat :=
  let delay_index := attempts - 1
  if h : delay_index < RETRY_DELAYS.length then RETRY_DELAYS.get ⟨delay_index, h⟩
  else RETRY_DELAYS.getLastD 0

/-- Failure handling of `worker_thread` (lines 253-300) on the claimed
document `t`: increments the local attempt counter, and either sleeps
`retryDelaySec` seconds and then issues the single retry update, or
issues the permanent-failure update.  The first component is the number
of seconds slept before the store update. -/
def failureHandling (t : Task) (err : String) (now : Nat) (s : List Task) : Nat × List Task :=
  let attempts := t.attempt_count + 1
  if RETRY_ENABLED = true ∧ attempts < MAX_RETRIES then
    (retryDelaySec attempts, retryById t.domain attempts err s)
  else
    (0, failById t.domain attempts err now s)

/-- Stale filter of `doctor_thread` (line 308): `status == "processing"`
and `last_heartbeat < cutoff` (a missing heartbeat never matches a
`$lt` date comparison). -/
def staleFilter (cutoff : Nat) (t : Task) : Bool :=
  t.status == Status.processing &&
    (match t.last_heartbeat with
     | some h => decide (h < cutoff)
     | none => false)

/-- Reset applied by `doctor_thread` to each stale task (lines 313-316):
always back to `pending`, `worker_id` cleared, `last_error` set to
`"Watchdog Reset"`; `attempt_count` untouched, never `failed`. -/
def doctorFix (t : Task) : Task :=
  { t with status := Status.pending, worker_id := none,
           last_error := some "Watchdog Reset" }

/-- One pass of `doctor_thread`: reset every stale processing task. -/
def doctorScan (cutoff : Nat) (s : List Task) : List Task :=
  updateWhere (staleFilter cutoff) doctorFix s

/-- Certificate record of `main-v3.py` (`certificates` collection,
unique index on `domain`); the parsed payload is abstracted to its
content fingerprint. -/
structure CertRecord where
  domain : String
  fingerprint : String
  scanned_at : Nat := 0
deriving DecidableEq

/-- `certs_coll.insert_one` under the unique `domain` index with the
`DuplicateKeyError` pass of `worker_thread` (lines 243-246):
insert-if-absent keyed by domain. -/
def insertCert (r : CertRecord) (cs : List CertRecord) : List CertRecord :=
  if cs.any (fun c => c.domain == r.domain) then cs else cs ++ [r]

/-- One claim-then-fail round of a worker: claim a task and run the
failure handling on the claimed document (the path taken when fetch or
parse fails). -/
def round (w : String) (now : Nat) (err : String) (s : List Task) : List Task :=
  match claim w now s with
  | (none, s1) => s1
  | (some t, s1) => (failureHandling t err now s1).2

end V3

namespace V1

/-- Statuses used by `main-v1.py`: `"pending"`, `"in-progress"`,
`"done"`, `"failed"`. -/
inductive Status where
  | pending
  | in_progress
  | done
  | failed
deriving DecidableEq

/-- Task document of `main-v1.py` (`staging_domains` collection),
as seeded by `import_csv_into_staging` plus the fields later updates
add.  The worker fields are `Option`s so the `$unset`s are `none`. -/
structure Task where
  domain : String
  status : Status
  attempts : Nat
  last_error : Option String := none
  next_attempt_at : Nat
  start_ts : Option Nat := none
  worker_id : Option String := none
  last_heartbeat : Option Nat := none
  cert_fingerprint : Option String := none
  done_at : Option Nat := none
  failed_at : Option Nat := none
deriving DecidableEq

/-- MAX_ATTEMPTS in `main-v1.py`. -/
def MAX_ATTEMPTS : Nat := 3

/-- INITIAL_BACKOFF in `main-v1.py` (seconds). -/
def INITIAL_BACKOFF : Nat := 10

/-- MAX_BACKOFF in `main-v1.py` (seconds). -/
def MAX_BACKOFF : Nat := 20

/-- RECLAIM_TIMEOUT in `main-v1.py` (seconds). -/
def RECLAIM_TIMEOUT : Nat := 60

/-- `compute_backoff_seconds` of `main-v1.py` (lines 297-298):
`int(min(MAX_BACKOFF, INITIAL_BACKOFF * (2 ** attempts)))`. -/
def computeBackoffSeconds (attempts : Nat) : Nat :=
  min MAX_BACKOFF (INITIAL_BACKOFF * 2 ^ attempts)

/-- Lookup by the unique key `domain`. -/
def getTask (s : List Task) (d : String) : Option Task :=
  s.find? fun t => t.domain == d

/-- Filter of `claim_one_task` (lines 301-311): `status == "pending"`
and `next_attempt_at <= now`. -/
def claimFilter (now : Nat) (t : Task) : Bool :=
  t.status == Status.pending && decide (t.next_attempt_at ≤ now)

/-- The `$set` of `claim_one_task`. -/
def applyClaim (w : String) (now : Nat) (t : Task) : Task :=
  { t with status := Status.in_progress, worker_id := some w,
           start_ts := some now, last_heartbeat := some now }

/-- `claim_one_task`: `find_one_and_update` sorted by `_id` ascending
(insertion order, here list order), returning the post-update document. -/
def claimOneTask (w : String) (now : Nat) (s : List Task) : Option Task × List Task :=
  match s.find? (claimFilter now) with
  | none => (none, s)
  | some t =>
      (some (applyClaim w now t),
       updateWhere (fun u => u.domain == t.domain) (applyClaim w now) s)

/-- `mark_task_done` (lines 314-318): keyed by `_id` only, no worker
guard; clears the worker fields. -/
def markTaskDone (d : String) (fp : String) (now : Nat) (s : List Task) : List Task :=
  updateWhere (fun u => u.domain == d)
    (fun t => { t with status := Status.done, done_at := some now,
                       last_error := none, cert_fingerprint := some fp,
                       worker_id := none, start_ts := none, last_heartbeat := none }) s

/-- `mark_task_failed` (lines 321-339) applied to the freshly read
document `taskDoc`: `attempts = taskDoc.attempts + 1`; permanent
failure when `attempts >= MAX_ATTEMPTS`, else back to `pending` with
`next_attempt_at = now + compute_backoff_seconds(attempts)`.  Both
branches clear the worker fields.  Keyed by `_id` only. -/
def markTaskFailed (taskDoc : Task) (err : String) (now : Nat) (s : List Task) : List Task :=
  let attempts := taskDoc.attempts + 1
  if MAX_ATTEMPTS ≤ attempts then
    updateWhere (fun u => u.domain == taskDoc.domain)
      (fun t => { t with status := Status.failed, last_error := some err,
                         attempts := attempts, failed_at := some now,
                         worker_id := none, start_ts := none, last_heartbeat := none }) s
  else
    updateWhere (fun u => u.domain == taskDoc.domain)
      (fun t => { t with status := Status.pending, last_error := some err,
                         next_attempt_at := now + computeBackoffSeconds attempts,
                         attempts := attempts,
                         worker_id := none, start_ts := none, last_heartbeat := none }) s

/-- One tick of `heartbeat_updater` (lines 342-348):
`update_one({"_id": task_id, "worker_id": worker_id}, ...)` — guarded
by the lease holder (a no-op when the lease moved), not by status. -/
def heartbeat (d : String) (w : String) (now : Nat) (s : List Task) : List Task :=
  updateWhere (fun u => u.domain == d && u.worker_id == some w)
    (fun t => { t with last_heartbeat := some now }) s

/-- Stale filter of `reclaimer_loop` (line 421): `status ==
"in-progress"` and `last_heartbeat < cutoff`. -/
def staleFilter (cutoff : Nat) (t : Task) : Bool :=
  t.status == Status.in_progress &&
    (match t.last_heartbeat with
     | some h => decide (h < cutoff)
     | none => false)

/-- Update `reclaimer_loop` applies to one stale document (lines
427-439): increments `attempts`; `failed` when the incremented count
reaches MAX_ATTEMPTS, else `pending` with `next_attempt_at = now`
(immediately eligible, no backoff).  Both branches unset the worker
fields. -/
def reclaimFix (now : Nat) (t : Task) : Task :=
  let attempts := t.attempts + 1
  if MAX_ATTEMPTS ≤ attempts then
    { t with status := Status.failed, attempts := attempts, failed_at := some now,
             worker_id := none, start_ts := none, last_heartbeat := none }
  else
    { t with status := Status.pending, next_attempt_at := now,
             worker_id := none, start_ts := none, last_heartbeat := none,
             attempts := t.attempts + 1 }

/-- One pass of `reclaimer_loop` over all stale tasks. -/
def reclaimScan (now cutoff : Nat) (s : List Task) : List Task :=
  updateWhere (staleFilter cutoff) (reclaimFix now) s

/-- Certificate record of `main-v1.py` (`certificates` collection,
unique indexes on `fingerprint_sha256` and on
`(domain, fingerprint_sha256)`); the PEM and parsed metadata are
abstracted away. -/
structure CertRecord where
  domain : String
  fingerprint : String
  retrieved_at : Nat := 0
deriving DecidableEq

/-- `save_certificate_safe` (lines 351-366): upsert keyed by
`(fingerprint_sha256, domain)` — replace the matching record with the
fresh document, or insert it when absent. -/
def saveCertificateSafe (d fp : String) (now : Nat) (cs : List CertRecord) : List CertRecord :=
  if cs.any (fun c => c.fingerprint == fp && c.domain == d) then
    updateWhere (fun c => c.fingerprint == fp && c.domain == d)
      (fun _ => { domain := d, fingerprint := fp, retrieved_at := now }) cs
  else
    cs ++ [{ domain := d, fingerprint := fp, retrieved_at := now }]

end V1

namespace V2

/-- Task document of `main-v2.py` (`domain_processing_status`
collection). -/
structure Task where
  domain : String
  status : Status
  attempt_count : Nat
  worker_id : Option String := none
  started_at : Option Nat := none
  last_updated : Nat := 0
  error_message : Option String := none
deriving DecidableEq

/-- MAX_RETRIES in `main-v2.py`. -/
def MAX_RETRIES : Nat := 3

/-- Filter of `claim_work` (lines 296-317): `status == "pending"` and
`attempt_count < MAX_RETRIES`. -/
def claimFilter (t : Task) : Bool :=
  t.status == Status.pending && decide (t.attempt_count < MAX_RETRIES)

/-- The `sort=[("attempt_count", ASCENDING), ("domain", ASCENDING)]` of
`claim_work`: keep the record smaller in that lexicographic order,
first record wins ties. -/
def pickMin (t u : Task) : Task :=
  if u.attempt_count < t.attempt_count ∨
     (u.attempt_count = t.attempt_count ∧ u.domain < t.domain) then u else t

/-- The `$set` plus `$inc attempt_count` of `claim_work`: the attempt
counter is incremented inside the atomic claim. -/
def applyClaim (w : String) (now : Nat) (t : Task) : Task :=
  { t with status := Status.processing, worker_id := some w,
           started_at := some now, last_updated := now,
           attempt_count := t.attempt_count + 1 }

/-- `claim_work`: atomic `find_one_and_update` returning the
post-update document. -/
def claimWork (w : String) (now : Nat) (s : List Task) : Option Task × List Task :=
  match s.filter claimFilter with
  | [] => (none, s)
  | t :: ts =>
      let sel := ts.foldl pickMin t
      (some (applyClaim w now sel),
       updateWhere (fun u => u.domain == sel.domain) (applyClaim w now) s)

end V2

/-! Helper lemmas about the store embedding. -/

/-- A fold with a function that always returns one of its two arguments
lands in the input list (with the seed). -/
theorem foldl_choice_mem {α : Type} (f : α → α → α)
    (hf : ∀ a b, f a b = a ∨ f a b = b) :
    ∀ (l : List α) (a : α), l.foldl f a ∈ a :: l := by
  intro l
  induction l with
  | nil => intro a; simp
  | cons x xs ih =>
    intro a
    simp only [List.foldl_cons]
    rcases hf a x with h | h <;> rw [h]
    · rcases List.mem_cons.mp (ih a) with h2 | h2
      · exact List.mem_cons.mpr (Or.inl h2)
      · exact List.mem_cons.mpr (Or.inr (List.mem_cons.mpr (Or.inr h2)))
    · rcases List.mem_cons.mp (ih x) with h2 | h2
      · exact List.mem_cons.mpr (Or.inr (List.mem_cons.mpr (Or.inl h2)))
      · exact List.mem_cons.mpr (Or.inr (List.mem_cons.mpr (Or.inr h2)))

/-- `find?` commutes with mapping a function that does not change the
predicate's verdict. -/
theorem find?_map_of_pred_inv {α : Type} (p : α → Bool) (g : α → α)
    (hg : ∀ a, p (g a) = p a) (l : List α) :
    (l.map g).find? p = (l.find? p).map g := by
  induction l with
  | nil => rfl
  | cons x xs ih =>
    rw [List.map_cons, List.find?_cons, List.find?_cons, hg x]
    cases hpx : p x
    · simpa using ih
    · simp

/-- In a store whose keys are nodup, records sharing a key coincide. -/
theorem nodup_key_inj {α β : Type} (key : α → β) {l : List α}
    (h : (l.map key).Nodup) {a b : α} (ha : a ∈ l) (hb : b ∈ l)
    (hk : key a = key b) : a = b :=
  List.inj_on_of_nodup_map h ha hb hk

/-- The v3 claim's `pickMinAttempt` always returns one of its arguments. -/
theorem v3_pickMinAttempt_choice (a b : V3.Task) :
    V3.pickMinAttempt a b = a ∨ V3.pickMinAttempt a b = b := by
  unfold V3.pickMinAttempt
  split
  · exact Or.inr rfl
  · exact Or.inl rfl

/-- A document selected by the v3 claim is in the store and pending. -/
theorem v3_selectClaim_spec {s : List V3.Task} {t : V3.Task}
    (h : V3.selectClaim s = some t) :
    t ∈ s ∧ t.status = Status.pending := by
  unfold V3.selectClaim at h
  cases hf : s.filter V3.claimFilter with
  | nil => rw [hf] at h; exact absurd h (by simp)
  | cons x xs =>
    rw [hf] at h
    have hmem : xs.foldl V3.pickMinAttempt x ∈ x :: xs :=
      foldl_choice_mem V3.pickMinAttempt v3_pickMinAttempt_choice xs x
    rw [← hf] at hmem
    have hmem' := List.mem_filter.mp hmem
    have ht : t = xs.foldl V3.pickMinAttempt x := by
      injection h with h'
      exact h'.symm
    subst ht
    refine ⟨hmem'.1, ?_⟩
    have := hmem'.2
    unfold V3.claimFilter at this
    exact beq_iff_eq.mp this

/-- A successful v3 claim is the atomic update of a pending store record. -/
theorem v3_claim_spec {s : List V3.Task} {w : String} {now : Nat} {t : V3.Task}
    (h : (V3.claim w now s).1 = some t) :
    ∃ u ∈ s, u.status = Status.pending ∧ t = V3.applyClaim w now u ∧
      (V3.claim w now s).2 =
        updateWhere (fun v => v.domain == u.domain) (V3.applyClaim w now) s := by
  unfold V3.claim at h ⊢
  cases hsel : V3.selectClaim s with
  | none =>
    rw [hsel] at h
    exact Option.noConfusion h
  | some u =>
    rw [hsel] at h
    obtain ⟨hu, hpend⟩ := v3_selectClaim_spec hsel
    refine ⟨u, hu, hpend, ?_, rfl⟩
    injection h with h'
    exact h'.symm

/-- Updating a store never changes the sequence of domains when the
update function preserves the domain. -/
theorem map_domain_updateWhere {α β : Type} (key : α → β) (p : α → Bool) (f : α → α)
    (hf : ∀ u, key (f u) = key u) (s : List α) :
    (updateWhere p f s).map key = s.map key := by
  unfold updateWhere
  rw [List.map_map]
  apply List.map_congr_left
  intro a _
  by_cases hpa : p a = true
  · simp [hpa, hf a]
  · simp [hpa]

/-- `find?` by key commutes with a key-preserving store update. -/
theorem find?_key_updateWhere {α β : Type} [BEq β] (key : α → β) (p : α → Bool) (f : α → α)
    (hf : ∀ u, key (f u) = key u) (s : List α) (d : β) :
    (updateWhere p f s).find? (fun t => key t == d) =
      (s.find? (fun t => key t == d)).map (fun t => if p t then f t else t) := by
  unfold updateWhere
  apply find?_map_of_pred_inv
  intro a
  by_cases hpa : p a = true
  · simp [hpa, hf a]
  · simp [hpa]

/-- C1: mutual exclusion of leases.  With one Task record per domain,
two consecutive atomic claim operations (v3 `worker_thread`'s
`find_one_and_update`) by any two workers never return the same Task:
the first claim leaves the selected record `processing`, so the second,
which only selects `pending` records, cannot pick it.  The claim also
never creates or removes records, so the per-domain uniqueness of
records is preserved. -/
theorem c1_claim_mutual_exclusion
    (s s1 : List V3.Task) (w1 w2 : String) (n1 n2 : Nat) (t1 t2 : V3.Task)
    (h1 : V3.claim w1 n1 s = (some t1, s1))
    (h2 : (V3.claim w2 n2 s1).1 = some t2) :
    t1.domain ≠ t2.domain ∧ s1.map V3.Task.domain = s.map V3.Task.domain := by
  have h1' : (V3.claim w1 n1 s).1 = some t1 := by rw [h1]
  obtain ⟨u1, hu1mem, hu1pend, ht1, hs1⟩ := v3_claim_spec h1'
  have hs1' : s1 = updateWhere (fun v => v.domain == u1.domain) (V3.applyClaim w1 n1) s := by
    rw [← hs1, h1]
  obtain ⟨u2, hu2mem, hu2pend, ht2, _⟩ := v3_claim_spec h2
  constructor
  · intro hdom
    have hd1 : t1.domain = u1.domain := by rw [ht1]; rfl
    have hd2 : t2.domain = u2.domain := by rw [ht2]; rfl
    rw [hd1, hd2] at hdom
    rw [hs1'] at hu2mem
    unfold updateWhere at hu2mem
    obtain ⟨v, hvmem, hveq⟩ := List.mem_map.mp hu2mem
    by_cases hvd : (v.domain == u1.domain) = true
    · rw [if_pos hvd] at hveq
      have : u2.status = Status.processing := by rw [← hveq]; rfl
      rw [hu2pend] at this
      exact absurd this (by simp)
    · rw [if_neg hvd] at hveq
      have : v.domain ≠ u1.domain := by
        intro hc; exact hvd (beq_iff_eq.mpr hc)
      rw [hveq] at this
      exact this hdom.symm
  · rw [hs1']
    exact map_domain_updateWhere V3.Task.domain (fun v => v.domain == u1.domain)
      (V3.applyClaim w1 n1) (fun u => rfl) s

/-- Concrete two-task store for the C1 witness. -/
def c1exA : V3.Task :=
  { domain := "a.example", status := Status.pending, attempt_count := 0,
    worker_id := none, last_heartbeat := none }

/-- Second concrete task for the C1 witness. -/
def c1exB : V3.Task :=
  { domain := "b.example", status := Status.pending, attempt_count := 0,
    worker_id := none, last_heartbeat := none }

/-- C1 witness: two workers claiming from the two-task store receive
distinct domains. -/
theorem c1_claim_mutual_exclusion_witness :
    (V3.applyClaim "W1" 0 c1exA).domain ≠ (V3.applyClaim "W2" 0 c1exB).domain ∧
    ((V3.claim "W1" 0 [c1exA, c1exB]).2).map V3.Task.domain =
      [c1exA, c1exB].map V3.Task.domain :=
  c1_claim_mutual_exclusion [c1exA, c1exB] ((V3.claim "W1" 0 [c1exA, c1exB]).2)
    "W1" "W2" 0 0 (V3.applyClaim "W1" 0 c1exA) (V3.applyClaim "W2" 0 c1exB)
    (by decide) (by decide)

/-- Stale processing task with exhausted attempts, for C2. -/
def c2exTask : V3.Task :=
  { domain := "a.example", status := Status.processing, attempt_count := 3,
    worker_id := some "W1", last_heartbeat := some 0 }

/-- C2 counterexample: the v3 watchdog (`doctor_thread`) applied to a
stale processing task whose `attempt_count` already equals MAX_RETRIES
neither increments the attempt count nor fails the task: it always
resets it to `pending`, contradicting the claimed retry-or-fail
decision. -/
theorem c2_counterexample :
    V3.doctorScan 100 [c2exTask] =
      [{ c2exTask with status := Status.pending, worker_id := none,
                       last_error := some "Watchdog Reset" }] ∧
    (V3.doctorFix c2exTask).status ≠ Status.failed ∧
    (V3.doctorFix c2exTask).attempt_count = c2exTask.attempt_count := by
  decide

/-- C2 (amended): the v1 reclaimer increments the attempt count and
applies the retry-or-fail decision — `failed` when the incremented
count reaches MAX_ATTEMPTS, else `pending` made immediately eligible
(`next_attempt_at = now`, no backoff delay) — clearing the lease in
both branches; the v3 doctor instead always resets a stale task to
`pending` with the lease cleared, leaving `attempt_count` unchanged and
never failing it. -/
theorem c2_amended (t1 : V1.Task) (t3 : V3.Task) (now : Nat) :
    (t1.attempts + 1 < V1.MAX_ATTEMPTS →
       (V1.reclaimFix now t1).status = V1.Status.pending ∧
       (V1.reclaimFix now t1).next_attempt_at = now ∧
       (V1.reclaimFix now t1).attempts = t1.attempts + 1 ∧
       (V1.reclaimFix now t1).worker_id = none) ∧
    (V1.MAX_ATTEMPTS ≤ t1.attempts + 1 →
       (V1.reclaimFix now t1).status = V1.Status.failed ∧
       (V1.reclaimFix now t1).attempts = t1.attempts + 1 ∧
       (V1.reclaimFix now t1).worker_id = none) ∧
    (V3.doctorFix t3).status = Status.pending ∧
    (V3.doctorFix t3).attempt_count = t3.attempt_count ∧
    (V3.doctorFix t3).worker_id = none := by
  refine ⟨?_, ?_, rfl, rfl, rfl⟩
  · intro h
    simp only [V1.reclaimFix]
    rw [if_neg (by omega)]
    exact ⟨rfl, rfl, rfl, rfl⟩
  · intro h
    simp only [V1.reclaimFix]
    rw [if_pos h]
    exact ⟨rfl, rfl, rfl⟩

/-- Stale v1 task one failure away from exhaustion, for the C2 witness. -/
def c2v1Task : V1.Task :=
  { domain := "c.example", status := V1.Status.in_progress, attempts := 2,
    next_attempt_at := 0, worker_id := some "W1", last_heartbeat := some 0 }

/-- C2 witness: the amended behavior at concrete stale tasks. -/
theorem c2_amended_witness :
    (V1.reclaimFix 50 c2v1Task).status = V1.Status.failed ∧
    (V3.doctorFix c2exTask).status = Status.pending := by
  have h := c2_amended c2v1Task c2exTask 50
  exact ⟨(h.2.1 (by decide)).1, h.2.2.1⟩

/-- The v2 claim's `pickMin` always returns one of its arguments. -/
theorem v2_pickMin_choice (a b : V2.Task) :
    V2.pickMin a b = a ∨ V2.pickMin a b = b := by
  unfold V2.pickMin
  split
  · exact Or.inr rfl
  · exact Or.inl rfl

/-- A document returned by the v2 `claim_work` is the atomic update of
an eligible store record. -/
theorem v2_claimWork_spec {s : List V2.Task} {w : String} {now : Nat} {t : V2.Task}
    (h : (V2.claimWork w now s).1 = some t) :
    ∃ u ∈ s, V2.claimFilter u = true ∧ t = V2.applyClaim w now u := by
  unfold V2.claimWork at h
  cases hf : s.filter V2.claimFilter with
  | nil =>
    rw [hf] at h
    exact Option.noConfusion h
  | cons x xs =>
    rw [hf] at h
    have hmem : xs.foldl V2.pickMin x ∈ x :: xs :=
      foldl_choice_mem V2.pickMin v2_pickMin_choice xs x
    rw [← hf] at hmem
    have hmem' := List.mem_filter.mp hmem
    refine ⟨xs.foldl V2.pickMin x, hmem'.1, hmem'.2, ?_⟩
    injection h with h'
    exact h'.symm

/-- A document returned by the v1 `claim_one_task` is the atomic update
of the first eligible store record. -/
theorem v1_claimOneTask_spec {s : List V1.Task} {w : String} {now : Nat} {t : V1.Task}
    (h : (V1.claimOneTask w now s).1 = some t) :
    ∃ u ∈ s, V1.claimFilter now u = true ∧ t = V1.applyClaim w now u ∧
      (V1.claimOneTask w now s).2 =
        updateWhere (fun v => v.domain == u.domain) (V1.applyClaim w now) s := by
  unfold V1.claimOneTask at h ⊢
  cases hfind : s.find? (V1.claimFilter now) with
  | none =>
    rw [hfind] at h
    exact Option.noConfusion h
  | some u =>
    rw [hfind] at h
    refine ⟨u, List.mem_of_find?_eq_some hfind, List.find?_some hfind, ?_, rfl⟩
    injection h with h'
    exact h'.symm

/-- C3 counterexample: in v3 the claim operation leaves `attempt_count`
unchanged — a worker claiming a fresh task receives it with
`attempt_count = 0`, not 1 as the claim requires. -/
theorem c3_counterexample :
    (V3.claim "W1" 7 [c1exA]).1 = some (V3.applyClaim "W1" 7 c1exA) ∧
    (V3.applyClaim "W1" 7 c1exA).attempt_count = 0 ∧
    V3.getTask ((V3.claim "W1" 7 [c1exA]).2) "a.example" =
      some (V3.applyClaim "W1" 7 c1exA) := by
  decide

/-- C3 (amended): only v2's `claim_work` increments `attempt_count`
atomically inside the claim; in v3 and v1 the claim operation leaves
the attempt counter unchanged (it is incremented by the failure/retry
decision instead), so there `attempt_count` counts failed attempts, not
claims. -/
theorem c3_amended (s2 : List V2.Task) (s3 : List V3.Task) (s1 : List V1.Task)
    (w : String) (now : Nat) (t2 : V2.Task) (t3 : V3.Task) (t1 : V1.Task)
    (h2 : (V2.claimWork w now s2).1 = some t2)
    (h3 : (V3.claim w now s3).1 = some t3)
    (h1 : (V1.claimOneTask w now s1).1 = some t1) :
    (∃ u ∈ s2, t2 = V2.applyClaim w now u ∧ t2.attempt_count = u.attempt_count + 1) ∧
    (∃ u ∈ s3, t3 = V3.applyClaim w now u ∧ t3.attempt_count = u.attempt_count) ∧
    (∃ u ∈ s1, t1 = V1.applyClaim w now u ∧ t1.attempts = u.attempts) := by
  obtain ⟨u2, hu2, _, ht2⟩ := v2_claimWork_spec h2
  obtain ⟨u3, hu3, _, ht3, _⟩ := v3_claim_spec h3
  obtain ⟨u1, hu1, _, ht1, _⟩ := v1_claimOneTask_spec h1
  refine ⟨⟨u2, hu2, ht2, ?_⟩, ⟨u3, hu3, ht3, ?_⟩, ⟨u1, hu1, ht1, ?_⟩⟩
  · rw [ht2]; rfl
  · rw [ht3]; rfl
  · rw [ht1]; rfl

/-- Fresh pending v2 task for the C3 witness. -/
def c3v2Task : V2.Task :=
  { domain := "a.example", status := Status.pending, attempt_count := 0 }

/-- Fresh pending v1 task for the C3 witness. -/
def c3v1Task : V1.Task :=
  { domain := "a.example", status := V1.Status.pending, attempts := 0,
    next_attempt_at := 0 }

/-- C3 witness: the amended attempt-count behavior at concrete claims. -/
theorem c3_amended_witness :
    (∃ u ∈ [c3v2Task], V2.applyClaim "W1" 5 c3v2Task = V2.applyClaim "W1" 5 u ∧
       (V2.applyClaim "W1" 5 c3v2Task).attempt_count = u.attempt_count + 1) ∧
    (∃ u ∈ [c1exA], V3.applyClaim "W1" 5 c1exA = V3.applyClaim "W1" 5 u ∧
       (V3.applyClaim "W1" 5 c1exA).attempt_count = u.attempt_count) ∧
    (∃ u ∈ [c3v1Task], V1.applyClaim "W1" 5 c3v1Task = V1.applyClaim "W1" 5 u ∧
       (V1.applyClaim "W1" 5 c3v1Task).attempts = u.attempts) :=
  c3_amended [c3v2Task] [c1exA] [c3v1Task] "W1" 5
    (V2.applyClaim "W1" 5 c3v2Task) (V3.applyClaim "W1" 5 c1exA)
    (V1.applyClaim "W1" 5 c3v1Task)
    (by decide) (by decide) (by decide)

/-- Fresh pending task for the C4 counterexample trace. -/
def c4t0 : V3.Task :=
  { domain := "a.example", status := Status.pending, attempt_count := 0,
    worker_id := none, last_heartbeat := none }

/-- Document worker W1 receives from its claim at time 0. -/
def c4claimedA : V3.Task := V3.applyClaim "W1" 0 c4t0

/-- Store after W1's claim at time 0. -/
def c4s1 : List V3.Task := (V3.claim "W1" 0 [c4t0]).2

/-- Store after the doctor reclaims W1's stale lease (heartbeat 0 is
older than the cutoff 100). -/
def c4s2 : List V3.Task := V3.doctorScan 100 c4s1

/-- Store after worker W2 claims the reclaimed task at time 100. -/
def c4s3 : List V3.Task := (V3.claim "W2" 100 c4s2).2

/-- Store after W2 completes the task. -/
def c4s4 : List V3.Task := V3.completeById "a.example" 101 c4s3

/-- Store after W1's delayed failure handling of its old claim runs. -/
def c4s5 : List V3.Task :=
  (V3.failureHandling c4claimedA "Connection Timed Out" 150 c4s4).2

/-- C4 counterexample: in v3 the worker's outcome updates are keyed by
`_id` only, so in the interleaving claim(W1) - watchdog reclaim -
claim(W2) - complete(W2) - retry-write(W1) the task moves from the
terminal status `completed` back to `pending`. -/
theorem c4_counterexample :
    (V3.getTask c4s4 "a.example").map V3.Task.status = some Status.completed ∧
    (V3.getTask c4s5 "a.example").map V3.Task.status = some Status.pending := by
  decide

/-- C4 (amended): the guarded operations — the claim (which selects
only `pending` records) and the watchdog scan (which touches only
stale `processing` records) — never move a task out of a terminal
status; only the worker's unconditional by-id outcome writes can, as
the counterexample shows. -/
theorem c4_amended (s : List V3.Task) (d : String) (t : V3.Task)
    (w : String) (now cutoff : Nat)
    (hnd : (s.map V3.Task.domain).Nodup)
    (ht : V3.getTask s d = some t)
    (hterm : t.status = Status.completed ∨ t.status = Status.failed) :
    V3.getTask ((V3.claim w now s).2) d = some t ∧
    V3.getTask (V3.doctorScan cutoff s) d = some t := by
  constructor
  · cases hres : (V3.claim w now s).1 with
    | none =>
      have hsame : (V3.claim w now s).2 = s := by
        unfold V3.claim at hres ⊢
        cases hsel : V3.selectClaim s with
        | none => rfl
        | some u =>
          rw [hsel] at hres
          exact Option.noConfusion hres
      rw [hsame]
      exact ht
    | some tc =>
      obtain ⟨u, hu, hupend, _, hs2⟩ := v3_claim_spec hres
      rw [hs2]
      unfold V3.getTask at ht ⊢
      rw [find?_key_updateWhere V3.Task.domain (fun v => v.domain == u.domain)
        (V3.applyClaim w now) (fun v => rfl) s d, ht]
      have htmem : t ∈ s := List.mem_of_find?_eq_some ht
      have hne : (t.domain == u.domain) = false := by
        apply beq_eq_false_iff_ne.mpr
        intro hc
        have heq : t = u := nodup_key_inj V3.Task.domain hnd htmem hu hc
        rw [heq, hupend] at hterm
        rcases hterm with h | h <;> exact Status.noConfusion h
      simp only [Option.map_some']
      rw [if_neg (by simp [hne])]
  · unfold V3.doctorScan
    unfold V3.getTask at ht ⊢
    rw [find?_key_updateWhere V3.Task.domain (V3.staleFilter cutoff)
      V3.doctorFix (fun v => rfl) s d, ht]
    have hst : V3.staleFilter cutoff t = false := by
      unfold V3.staleFilter
      rcases hterm with h | h <;> rw [h] <;> rfl
    simp [hst]

/-- Completed task for the C4 witness. -/
def c4doneTask : V3.Task :=
  { domain := "d.example", status := Status.completed, attempt_count := 1,
    worker_id := none, last_heartbeat := some 0 }

/-- C4 witness: claim and watchdog leave a completed task untouched. -/
theorem c4_amended_witness :
    V3.getTask ((V3.claim "W1" 5 [c4doneTask]).2) "d.example" = some c4doneTask ∧
    V3.getTask (V3.doctorScan 100 [c4doneTask]) "d.example" = some c4doneTask :=
  c4_amended [c4doneTask] "d.example" c4doneTask "W1" 5 100
    (by decide) (by decide) (by decide)

/-- Worker W1's claimed document before its failure, for C5. -/
def c5t : V3.Task :=
  { domain := "a.example", status := Status.processing, attempt_count := 0,
    worker_id := some "W1", last_heartbeat := some 10 }

/-- Store right after W1's retry update, conceptually issued at time 10
with a configured delay of 5 seconds. -/
def c5s : List V3.Task := (V3.failureHandling c5t "Connection Timed Out" 10 [c5t]).2

/-- C5 counterexample: the v3 claim filter is `status == "pending"`
alone — the store holds no eligibility timestamp — so a task just
returned to `pending` whose configured retry delay is 5 seconds is
successfully claimed immediately, before any backoff elapses. -/
theorem c5_counterexample :
    (V3.failureHandling c5t "Connection Timed Out" 10 [c5t]).1 = 5 ∧
    ((V3.claim "W2" 10 c5s).1).isSome = true := by
  decide

/-- C5 (amended): the claimability condition holds in v1:
`claim_one_task` returns a task iff some record has `status ==
"pending"` and `next_attempt_at <= now`, and the returned task is the
in-progress update of an eligible record (its `next_attempt_at` is in
the past).  v3 claims any pending record regardless of time — backoff
there is only the failing worker's sleep before releasing the task. -/
theorem c5_amended (s : List V1.Task) (w : String) (now : Nat) :
    (((V1.claimOneTask w now s).1).isSome = true ↔
       ∃ u ∈ s, u.status = V1.Status.pending ∧ u.next_attempt_at ≤ now) ∧
    (∀ t, (V1.claimOneTask w now s).1 = some t →
       t.status = V1.Status.in_progress ∧ t.next_attempt_at ≤ now) := by
  constructor
  · constructor
    · intro h
      obtain ⟨t, ht⟩ := Option.isSome_iff_exists.mp h
      obtain ⟨u, hu, hf, _, _⟩ := v1_claimOneTask_spec ht
      simp only [V1.claimFilter, Bool.and_eq_true, beq_iff_eq,
        decide_eq_true_eq] at hf
      exact ⟨u, hu, hf.1, hf.2⟩
    · rintro ⟨u, hu, hp, hle⟩
      unfold V1.claimOneTask
      cases hfind : s.find? (V1.claimFilter now) with
      | some t => rfl
      | none =>
        exfalso
        have hex : ∃ x ∈ s, V1.claimFilter now x = true := by
          refine ⟨u, hu, ?_⟩
          simp only [V1.claimFilter, Bool.and_eq_true, beq_iff_eq,
            decide_eq_true_eq]
          exact ⟨hp, hle⟩
        have h2 := List.find?_isSome.mpr hex
        rw [hfind] at h2
        exact Bool.noConfusion h2
  · intro t ht
    obtain ⟨u, _, hf, hteq, _⟩ := v1_claimOneTask_spec ht
    simp only [V1.claimFilter, Bool.and_eq_true, beq_iff_eq,
      decide_eq_true_eq] at hf
    rw [hteq]
    exact ⟨rfl, hf.2⟩

/-- Eligible pending v1 task for the C5 witness. -/
def c5v1Eligible : V1.Task :=
  { domain := "a.example", status := V1.Status.pending, attempts := 1,
    next_attempt_at := 15 }

/-- C5 witness: the v1 claim at time 20 takes the task eligible since
time 15 and marks it in-progress. -/
theorem c5_amended_witness :
    (((V1.claimOneTask "W1" 20 [c5v1Eligible]).1).isSome = true) ∧
    (V1.applyClaim "W1" 20 c5v1Eligible).status = V1.Status.in_progress := by
  have h := c5_amended [c5v1Eligible] "W1" 20
  refine ⟨h.1.mpr ⟨c5v1Eligible, by decide, by decide, by decide⟩, ?_⟩
  exact (h.2 (V1.applyClaim "W1" 20 c5v1Eligible) (by decide)).1

/-- `find?` on a one-record store. -/
theorem find?_singleton {α : Type} (p : α → Bool) (a : α) :
    [a].find? p = if p a then some a else none := by
  rw [List.find?_cons]
  cases hpa : p a <;> simp

/-- The v3 claim on a one-task store holding a pending task claims it. -/
theorem v3_claim_singleton (w : String) (now : Nat) (t : V3.Task)
    (hp : t.status = Status.pending) :
    V3.claim w now [t] = (some (V3.applyClaim w now t), [V3.applyClaim w now t]) := by
  unfold V3.claim V3.selectClaim
  have hf : [t].filter V3.claimFilter = [t] := by
    simp [V3.claimFilter, hp]
  rw [hf]
  simp [updateWhere]

/-- The v3 failure handling on the store holding just the claimed
document: retry below MAX_RETRIES, permanent failure at it. -/
theorem v3_failureHandling_singleton (t : V3.Task) (err : String) (now : Nat) :
    (V3.failureHandling t err now [t]).2 =
      if t.attempt_count + 1 < V3.MAX_RETRIES then
        [{ t with
            status := Status.pending,
            attempt_count := t.attempt_count + 1,
            last_error := some err,
            worker_id := none }]
      else
        [{ t with
            status := Status.failed,
            attempt_count := t.attempt_count + 1,
            last_error := some err,
            failed_at := some now }] := by
  by_cases h : t.attempt_count + 1 < V3.MAX_RETRIES
  · rw [if_pos h]
    unfold V3.failureHandling
    rw [if_pos (⟨rfl, h⟩ : V3.RETRY_ENABLED = true ∧ t.attempt_count + 1 < V3.MAX_RETRIES)]
    unfold V3.retryById updateWhere
    simp
  · rw [if_neg h]
    unfold V3.failureHandling
    rw [if_neg (fun hc => h hc.2)]
    unfold V3.failById updateWhere
    simp

/-- Task document produced by one claim-then-fail round, assembled from
the claim's `$set` and the retry/fail updates. -/
def v3RoundTask (w : String) (now : Nat) (err : String) (t : V3.Task) : V3.Task :=
  if t.attempt_count + 1 < V3.MAX_RETRIES then
    { V3.applyClaim w now t with
        status := Status.pending,
        attempt_count := t.attempt_count + 1,
        last_error := some err,
        worker_id := none }
  else
    { V3.applyClaim w now t with
        status := Status.failed,
        attempt_count := t.attempt_count + 1,
        last_error := some err,
        failed_at := some now }

/-- One claim-then-fail round on a one-task store with a pending task. -/
theorem v3_round_singleton (w : String) (now : Nat) (err : String) (t : V3.Task)
    (hp : t.status = Status.pending) :
    V3.round w now err [t] = [v3RoundTask w now err t] := by
  unfold V3.round
  rw [v3_claim_singleton w now t hp]
  show (V3.failureHandling (V3.applyClaim w now t) err now
    [V3.applyClaim w now t]).2 = _
  rw [v3_failureHandling_singleton]
  have hproj : (V3.applyClaim w now t).attempt_count = t.attempt_count := rfl
  rw [hproj]
  unfold v3RoundTask
  by_cases h : t.attempt_count + 1 < V3.MAX_RETRIES
  · rw [if_pos h, if_pos h]
  · rw [if_neg h, if_neg h]

/-- Key fields of the round result. -/
theorem v3RoundTask_fields (w : String) (now : Nat) (err : String) (t : V3.Task) :
    (v3RoundTask w now err t).domain = t.domain ∧
    (v3RoundTask w now err t).attempt_count = t.attempt_count + 1 ∧
    (v3RoundTask w now err t).status =
      (if t.attempt_count + 1 < V3.MAX_RETRIES then Status.pending
       else Status.failed) := by
  unfold v3RoundTask
  split
  · exact ⟨rfl, rfl, rfl⟩
  · exact ⟨rfl, rfl, rfl⟩

/-- Store after the doctor reclaims the stale first claim in the C6
trace (the watchdog does not touch `attempt_count`). -/
def c6s2 : List V3.Task := V3.doctorScan 100 c4s1

/-- Store after the second claim ends in a worker failure. -/
def c6s3 : List V3.Task := V3.round "W2" 100 "Connection Timed Out" c6s2

/-- Store after the third claim ends in a worker failure. -/
def c6s4 : List V3.Task := V3.round "W2" 200 "Connection Timed Out" c6s3

/-- Store after the fourth claim ends in a worker failure. -/
def c6s5 : List V3.Task := V3.round "W2" 300 "Connection Timed Out" c6s4

/-- C6 counterexample: when one of the claims is consumed by a watchdog
reclamation (which does not increment `attempt_count`), an all-failing
v3 task is still `pending` after its third claim and reaches `failed`
only after its fourth claim — more than MAX_RETRIES = 3 claims. -/
theorem c6_counterexample :
    (V3.getTask c6s4 "a.example").map (fun t => (t.status, t.attempt_count)) =
      some (Status.pending, 2) ∧
    (V3.getTask c6s5 "a.example").map (fun t => (t.status, t.attempt_count)) =
      some (Status.failed, 3) := by
  decide

/-- C6 (amended): counting only claims whose processing ends in a
worker-observed failure (no watchdog reclamation interfering), a v3
task starting at `attempt_count = 0` is still `pending` after one and
after two such claims, reaches `failed` with `attempt_count = 3`
exactly at the third, and can never be claimed again afterwards.
Claims consumed by v3 watchdog reclamation do not count toward the
bound, as the counterexample shows. -/
theorem c6_amended (t0 : V3.Task) (w : String) (now : Nat) (err : String)
    (h0 : t0.status = Status.pending) (ha : t0.attempt_count = 0) :
    (V3.getTask (V3.round w now err [t0]) t0.domain).map
        (fun t => (t.status, t.attempt_count)) = some (Status.pending, 1) ∧
    (V3.getTask (V3.round w now err (V3.round w now err [t0])) t0.domain).map
        (fun t => (t.status, t.attempt_count)) = some (Status.pending, 2) ∧
    (V3.getTask (V3.round w now err (V3.round w now err (V3.round w now err [t0])))
        t0.domain).map
        (fun t => (t.status, t.attempt_count)) = some (Status.failed, 3) ∧
    (V3.claim w now (V3.round w now err (V3.round w now err (V3.round w now err [t0])))).1
      = none := by
  obtain ⟨hd1, hc1, hs1⟩ := v3RoundTask_fields w now err t0
  rw [ha] at hc1
  rw [if_pos (by rw [ha]; decide)] at hs1
  have h1 : V3.round w now err [t0] = [v3RoundTask w now err t0] :=
    v3_round_singleton w now err t0 h0
  obtain ⟨hd2, hc2, hs2⟩ := v3RoundTask_fields w now err (v3RoundTask w now err t0)
  rw [hc1] at hc2
  rw [hc1, if_pos (by decide)] at hs2
  have h2 : V3.round w now err (V3.round w now err [t0]) =
      [v3RoundTask w now err (v3RoundTask w now err t0)] := by
    rw [h1]
    exact v3_round_singleton w now err _ hs1
  obtain ⟨hd3, hc3, hs3⟩ :=
    v3RoundTask_fields w now err (v3RoundTask w now err (v3RoundTask w now err t0))
  rw [hc2] at hc3
  rw [hc2, if_neg (by decide)] at hs3
  have h3 : V3.round w now err (V3.round w now err (V3.round w now err [t0])) =
      [v3RoundTask w now err (v3RoundTask w now err (v3RoundTask w now err t0))] := by
    rw [h2]
    exact v3_round_singleton w now err _ hs2
  rw [hd1] at hd2
  rw [hd2] at hd3
  refine ⟨?_, ?_, ?_, ?_⟩
  · rw [h1]
    unfold V3.getTask
    rw [find?_singleton, if_pos (by rw [hd1]; simp)]
    simp [hs1, hc1]
  · rw [h2]
    unfold V3.getTask
    rw [find?_singleton, if_pos (by rw [hd2]; simp)]
    simp [hs2, hc2]
  · rw [h3]
    unfold V3.getTask
    rw [find?_singleton, if_pos (by rw [hd3]; simp)]
    simp [hs3, hc3]
  · rw [h3]
    have hsel : V3.selectClaim
        [v3RoundTask w now err (v3RoundTask w now err (v3RoundTask w now err t0))] =
        none := by
      unfold V3.selectClaim
      have hfe : [v3RoundTask w now err
          (v3RoundTask w now err (v3RoundTask w now err t0))].filter V3.claimFilter
          = [] := by
        simp [V3.claimFilter, hs3]
      rw [hfe]
    unfold V3.claim
    rw [hsel]

/-- C6 witness: the amended bound at a concrete fresh task. -/
theorem c6_amended_witness :
    (V3.getTask (V3.round "W1" 0 "refused" [c4t0]) "a.example").map
        (fun t => (t.status, t.attempt_count)) = some (Status.pending, 1) ∧
    (V3.getTask (V3.round "W1" 0 "refused" (V3.round "W1" 0 "refused" [c4t0]))
        "a.example").map
        (fun t => (t.status, t.attempt_count)) = some (Status.pending, 2) ∧
    (V3.getTask (V3.round "W1" 0 "refused"
        (V3.round "W1" 0 "refused" (V3.round "W1" 0 "refused" [c4t0])))
        "a.example").map
        (fun t => (t.status, t.attempt_count)) = some (Status.failed, 3) ∧
    (V3.claim "W1" 0 (V3.round "W1" 0 "refused"
        (V3.round "W1" 0 "refused" (V3.round "W1" 0 "refused" [c4t0])))).1 = none :=
  c6_amended c4t0 "W1" 0 "refused" (by decide) (by decide)

/-- Every v3 retry delay from the fourth attempt on is the last list
entry, 15 seconds. -/
theorem v3_retryDelaySec_floor (n : Nat) :
    V3.retryDelaySec (n + 3) = 15 := by
  unfold V3.retryDelaySec V3.RETRY_DELAYS
  cases n with
  | zero => rfl
  | succ m =>
    rw [dif_neg (by simp only [List.length_cons, List.length_nil]; omega)]
    rfl

/-- Closed form of the v3 retry delay schedule. -/
theorem v3_retryDelaySec_eq (k : Nat) :
    V3.retryDelaySec k = if k ≤ 1 then 5 else if k = 2 then 10 else 15 := by
  match k with
  | 0 => rfl
  | 1 => rfl
  | 2 => rfl
  | n + 3 =>
    rw [v3_retryDelaySec_floor]
    rw [if_neg (by omega), if_neg (by omega)]

/-- The v3 retry delay schedule is non-decreasing. -/
theorem v3_retryDelaySec_mono {m n : Nat} (h : m ≤ n) :
    V3.retryDelaySec m ≤ V3.retryDelaySec n := by
  rw [v3_retryDelaySec_eq m, v3_retryDelaySec_eq n]
  split_ifs <;> omega

/-- C7 counterexample: the delay the v3 worker applies after the first
failure is RETRY_DELAYS[0] = 5 seconds, while the exponential formula
with the repository's configured backoff constants (main-v1.py:
INITIAL_BACKOFF = 10, MAX_BACKOFF = 20) yields 10 at n = 0 and 20 at
every larger n — v3's retry delays come from a fixed list, not from
min(max_backoff, initial_backoff * 2^n). -/
theorem c7_counterexample :
    V3.retryDelaySec 1 = 5 ∧
    V1.computeBackoffSeconds 0 = 10 ∧
    V1.computeBackoffSeconds 1 = 20 ∧
    V1.computeBackoffSeconds 2 = 20 := by
  decide

/-- C7 (amended): v1's `compute_backoff_seconds` is exactly
`min(max_backoff, initial_backoff * 2^n)`, non-decreasing in the
attempt count and never below `initial_backoff`; v3 instead applies
the fixed delay list [5, 10, 15] (clamped at its last entry), which is
also non-decreasing but not the exponential formula. -/
theorem c7_amended (m n : Nat) (h : m ≤ n) :
    V1.computeBackoffSeconds n = min V1.MAX_BACKOFF (V1.INITIAL_BACKOFF * 2 ^ n) ∧
    V1.computeBackoffSeconds m ≤ V1.computeBackoffSeconds n ∧
    V1.INITIAL_BACKOFF ≤ V1.computeBackoffSeconds n ∧
    V3.retryDelaySec m ≤ V3.retryDelaySec n := by
  refine ⟨rfl, ?_, ?_, v3_retryDelaySec_mono h⟩
  · unfold V1.computeBackoffSeconds
    exact min_le_min (le_refl _)
      (Nat.mul_le_mul_left _ (Nat.pow_le_pow_right (by decide) h))
  · unfold V1.computeBackoffSeconds V1.INITIAL_BACKOFF V1.MAX_BACKOFF
    apply le_min
    · decide
    · calc 10 = 10 * 1 := by decide
        _ ≤ 10 * 2 ^ n := Nat.mul_le_mul_left _ Nat.one_le_two_pow

/-- C7 witness: the amended backoff facts at attempt counts 1 and 2. -/
theorem c7_amended_witness :
    V1.computeBackoffSeconds 2 = min V1.MAX_BACKOFF (V1.INITIAL_BACKOFF * 2 ^ 2) ∧
    V1.computeBackoffSeconds 1 ≤ V1.computeBackoffSeconds 2 ∧
    V1.INITIAL_BACKOFF ≤ V1.computeBackoffSeconds 2 ∧
    V3.retryDelaySec 1 ≤ V3.retryDelaySec 2 :=
  c7_amended 1 2 (by decide)

/-- Task already reclaimed by the watchdog (pending, lease cleared)
whose old worker still issues calls, for C8. -/
def c8reclaimed : V3.Task :=
  { domain := "a.example", status := Status.pending, attempt_count := 1,
    worker_id := none, last_heartbeat := some 0,
    last_error := some "Watchdog Reset" }

/-- Task re-leased to worker W2 while the old worker W1 still runs,
for C8. -/
def c8released : V3.Task :=
  { domain := "a.example", status := Status.processing, attempt_count := 1,
    worker_id := some "W2", last_heartbeat := some 50 }

/-- C8 counterexample: the v3 heartbeat and complete updates are keyed
by `_id` only.  The old worker's heartbeat still overwrites
`last_heartbeat` of a task that is `pending` with no lease holder, and
its complete call still marks `completed` a task now leased to another
worker — and leaves that worker's lease in place. -/
theorem c8_counterexample :
    V3.heartbeatById "a.example" 99 [c8reclaimed] =
      [{ c8reclaimed with last_heartbeat := some 99 }] ∧
    V3.completeById "a.example" 99 [c8released] =
      [{ c8released with
          status := Status.completed,
          completed_at := some 99,
          error := none }] := by
  decide

/-- C8 (amended): v1's `heartbeat_updater` is guarded by the lease
holder: it refreshes `last_heartbeat` exactly when the record's
`worker_id` equals the calling worker, and otherwise is a no-op
leaving the record unchanged (never an error); v1's `mark_task_done`
and v3's heartbeat/complete updates are unconditional by id, as the
counterexample shows. -/
theorem c8_amended (s : List V1.Task) (d w : String) (now : Nat) (t : V1.Task)
    (ht : V1.getTask s d = some t) :
    (t.worker_id = some w →
       V1.getTask (V1.heartbeat d w now s) d =
         some { t with last_heartbeat := some now }) ∧
    (t.worker_id ≠ some w →
       V1.getTask (V1.heartbeat d w now s) d = some t) := by
  have key := find?_key_updateWhere V1.Task.domain
    (fun u => u.domain == d && u.worker_id == some w)
    (fun u => { u with last_heartbeat := some now }) (fun v => rfl) s d
  unfold V1.getTask at ht
  unfold V1.heartbeat V1.getTask
  rw [key, ht]
  have htd := List.find?_some ht
  simp only [beq_iff_eq] at htd
  constructor
  · intro hw
    simp [htd, hw]
  · intro hw
    have hwf : (t.worker_id == some w) = false := beq_eq_false_iff_ne.mpr hw
    simp only [Option.map_some']
    rw [if_neg (by simp [htd, hwf])]

/-- v1 task leased to W1, for the C8 witness. -/
def c8v1Owned : V1.Task :=
  { domain := "a.example", status := V1.Status.in_progress, attempts := 0,
    next_attempt_at := 0, worker_id := some "W1", last_heartbeat := some 5 }

/-- C8 witness: the owner's heartbeat refreshes the timestamp; a
stranger's heartbeat is a no-op. -/
theorem c8_amended_witness :
    V1.getTask (V1.heartbeat "a.example" "W1" 42 [c8v1Owned]) "a.example" =
      some { c8v1Owned with last_heartbeat := some 42 } ∧
    V1.getTask (V1.heartbeat "a.example" "W9" 42 [c8v1Owned]) "a.example" =
      some c8v1Owned := by
  constructor
  · exact (c8_amended [c8v1Owned] "a.example" "W1" 42 c8v1Owned (by decide)).1
      (by decide)
  · exact (c8_amended [c8v1Owned] "a.example" "W9" 42 c8v1Owned (by decide)).2
      (by decide)

/-- Two updates guarded by the same predicate compose when the first
update keeps the predicate true. -/
theorem updateWhere_updateWhere {α : Type} (p : α → Bool) (f g : α → α)
    (hpg : ∀ a, p a = true → p (g a) = true) (l : List α) :
    updateWhere p f (updateWhere p g l) = updateWhere p (fun a => f (g a)) l := by
  unfold updateWhere
  rw [List.map_map]
  apply List.map_congr_left
  intro a _
  simp only [Function.comp_apply]
  by_cases hpa : p a = true
  · rw [if_pos hpa, if_pos (hpg a hpa), if_pos hpa]
  · rw [if_neg hpa, if_neg hpa, if_neg hpa]

/-- C9 counterexample: in v1, `save_certificate_safe` upserts keyed by
`(fingerprint, domain)` and the certificates collection has no unique
index on `domain` alone, so a later fetch of the same domain with a
different fingerprint inserts a second record for that domain instead
of overwriting the first. -/
theorem c9_counterexample :
    ((V1.saveCertificateSafe "a.example" "fp2" 1
        (V1.saveCertificateSafe "a.example" "fp1" 0 [])).filter
      (fun c => c.domain == "a.example")).length = 2 := by
  decide

/-- C9 (amended): repeated writes are idempotent and never fail in both
versions — v1's upsert of the same `(domain, fingerprint)` twice equals
writing it once, and v3's insert-if-absent of the same record twice
equals inserting it once; in v3 (unique index on `domain`) any insert
leaves exactly `max 1 k` records for the domain, so a completed domain
has exactly one record, but a different fingerprint for the same domain
is dropped there rather than overwriting, while in v1 it creates a
second record for the domain, as the counterexample shows. -/
theorem c9_amended (d fp : String) (n1 n2 : Nat) (cs : List V1.CertRecord)
    (r : V3.CertRecord) (cs3 : List V3.CertRecord) :
    V1.saveCertificateSafe d fp n2 (V1.saveCertificateSafe d fp n1 cs) =
      V1.saveCertificateSafe d fp n2 cs ∧
    V3.insertCert r (V3.insertCert r cs3) = V3.insertCert r cs3 ∧
    ((V3.insertCert r cs3).filter (fun c => c.domain == r.domain)).length =
      max 1 ((cs3.filter (fun c => c.domain == r.domain)).length) := by
  refine ⟨?_, ?_, ?_⟩
  · unfold V1.saveCertificateSafe
    by_cases h : cs.any (fun c => c.fingerprint == fp && c.domain == d) = true
    · rw [if_pos h]
      have hany2 : (updateWhere (fun c => c.fingerprint == fp && c.domain == d)
          (fun _ => ({ domain := d, fingerprint := fp, retrieved_at := n1 } :
            V1.CertRecord)) cs).any
          (fun c => c.fingerprint == fp && c.domain == d) = true := by
        obtain ⟨x, hx, hpx⟩ := List.any_eq_true.mp h
        apply List.any_eq_true.mpr
        exact ⟨_, List.mem_map_of_mem _ hx, by simp [hpx]⟩
      rw [if_pos hany2, if_pos h]
      rw [updateWhere_updateWhere (fun c => c.fingerprint == fp && c.domain == d)
        (fun _ => ({ domain := d, fingerprint := fp, retrieved_at := n2 } :
          V1.CertRecord))
        (fun _ => ({ domain := d, fingerprint := fp, retrieved_at := n1 } :
          V1.CertRecord))
        (fun a _ => by simp) cs]
    · rw [if_neg h]
      have hany2 : (cs ++ [({ domain := d, fingerprint := fp, retrieved_at := n1 } :
          V1.CertRecord)]).any (fun c => c.fingerprint == fp && c.domain == d)
          = true := by
        rw [List.any_append]
        simp
      rw [if_pos hany2, if_neg h]
      unfold updateWhere
      rw [List.map_append]
      rw [Bool.not_eq_true] at h
      have hnone : ∀ a ∈ cs, (a.fingerprint == fp && a.domain == d) = false := by
        intro a ha
        have hne := List.any_eq_false.mp h a ha
        rwa [Bool.not_eq_true] at hne
      congr 1
      · have hid : ∀ a ∈ cs,
            (fun c => if (c.fingerprint == fp && c.domain == d) = true then
              ({ domain := d, fingerprint := fp, retrieved_at := n2 } :
                V1.CertRecord) else c) a = id a := by
          intro a ha
          show (if (a.fingerprint == fp && a.domain == d) = true then
            ({ domain := d, fingerprint := fp, retrieved_at := n2 } :
              V1.CertRecord) else a) = id a
          rw [if_neg (by rw [hnone a ha]; exact Bool.false_ne_true)]
          rfl
        exact (List.map_congr_left hid).trans (List.map_id cs)
      · simp
  · unfold V3.insertCert
    by_cases h : cs3.any (fun c => c.domain == r.domain) = true
    · rw [if_pos h, if_pos h]
    · rw [if_neg h, if_pos (by rw [List.any_append]; simp)]
  · unfold V3.insertCert
    by_cases h : cs3.any (fun c => c.domain == r.domain) = true
    · rw [if_pos h]
      obtain ⟨x, hx, hpx⟩ := List.any_eq_true.mp h
      have hpos : 1 ≤ (cs3.filter (fun c => c.domain == r.domain)).length :=
        List.length_pos.mpr (List.ne_nil_of_mem (List.mem_filter.mpr ⟨hx, hpx⟩))
      exact (Nat.max_eq_right hpos).symm
    · rw [if_neg h]
      have hnil : cs3.filter (fun c => c.domain == r.domain) = [] := by
        apply List.filter_eq_nil_iff.mpr
        intro a ha
        exact (List.any_eq_false.mp (eq_false_of_ne_true h) a ha)
      rw [List.filter_append, hnil]
      simp

/-- C10: in v3, a retryable failure makes the worker sleep exactly the
configured RETRY_DELAYS entry before issuing the single retry update;
until that update the store is untouched, so the task claimed by the
failing worker stays `processing` under its lease for the whole delay,
and the update returns it to `pending` with the lease cleared and no
stored eligibility timestamp — the updated record already satisfies the
claim filter, so it is immediately claimable by any worker. -/
theorem c10_v3_backoff_is_worker_sleep
    (s0 : List V3.Task) (w err : String) (n0 now : Nat) (t : V3.Task)
    (hclaim : (V3.claim w n0 s0).1 = some t)
    (hnd : (s0.map V3.Task.domain).Nodup)
    (hretry : t.attempt_count + 1 < V3.MAX_RETRIES) :
    V3.getTask ((V3.claim w n0 s0).2) t.domain = some t ∧
    t.status = Status.processing ∧
    t.worker_id = some w ∧
    V3.failureHandling t err now ((V3.claim w n0 s0).2) =
      (V3.retryDelaySec (t.attempt_count + 1),
       V3.retryById t.domain (t.attempt_count + 1) err ((V3.claim w n0 s0).2)) ∧
    V3.getTask ((V3.failureHandling t err now ((V3.claim w n0 s0).2)).2) t.domain =
      some { t with
              status := Status.pending,
              attempt_count := t.attempt_count + 1,
              last_error := some err,
              worker_id := none } ∧
    V3.claimFilter { t with
        status := Status.pending,
        attempt_count := t.attempt_count + 1,
        last_error := some err,
        worker_id := none } = true := by
  obtain ⟨u, hu, hupend, hteq, hs2⟩ := v3_claim_spec hclaim
  have htd : t.domain = u.domain := by rw [hteq]; rfl
  have hget : V3.getTask ((V3.claim w n0 s0).2) t.domain = some t := by
    rw [hs2, htd]
    unfold V3.getTask
    rw [find?_key_updateWhere V3.Task.domain (fun v => v.domain == u.domain)
      (V3.applyClaim w n0) (fun v => rfl) s0 u.domain]
    have hfind : s0.find? (fun x => x.domain == u.domain) = some u := by
      cases hf : s0.find? (fun x => x.domain == u.domain) with
      | none =>
        exfalso
        have hex : ∃ x ∈ s0, (x.domain == u.domain) = true := ⟨u, hu, by simp⟩
        have h2 := List.find?_isSome.mpr hex
        rw [hf] at h2
        exact Bool.noConfusion h2
      | some v =>
        have hv := List.find?_some hf
        simp only [beq_iff_eq] at hv
        have := nodup_key_inj V3.Task.domain hnd
          (List.mem_of_find?_eq_some hf) hu hv
        rw [this]
    rw [hfind]
    simp only [Option.map_some']
    rw [if_pos (by simp), hteq]
  have hfh : V3.failureHandling t err now ((V3.claim w n0 s0).2) =
      (V3.retryDelaySec (t.attempt_count + 1),
       V3.retryById t.domain (t.attempt_count + 1) err ((V3.claim w n0 s0).2)) := by
    unfold V3.failureHandling
    rw [if_pos (⟨rfl, hretry⟩ :
      V3.RETRY_ENABLED = true ∧ t.attempt_count + 1 < V3.MAX_RETRIES)]
  refine ⟨hget, by rw [hteq]; rfl, by rw [hteq]; rfl, hfh, ?_, rfl⟩
  rw [hfh]
  unfold V3.retryById
  unfold V3.getTask
  unfold V3.getTask at hget
  rw [find?_key_updateWhere V3.Task.domain (fun v => v.domain == t.domain)
    (fun t2 => { t2 with
        status := Status.pending,
        attempt_count := t.attempt_count + 1,
        last_error := some err,
        worker_id := none })
    (fun v => rfl) ((V3.claim w n0 s0).2) t.domain]
  rw [hget]
  simp only [Option.map_some']
  rw [if_pos (by simp)]

/-- C10 witness: the retry path at a concrete one-task store — claim at
time 0, failure handled at time 3: delay RETRY_DELAYS[0], one retry
update, immediately claimable result. -/
theorem c10_v3_backoff_is_worker_sleep_witness :
    V3.getTask ((V3.claim "W1" 0 [c1exA]).2) (V3.applyClaim "W1" 0 c1exA).domain =
      some (V3.applyClaim "W1" 0 c1exA) ∧
    (V3.applyClaim "W1" 0 c1exA).status = Status.processing ∧
    (V3.applyClaim "W1" 0 c1exA).worker_id = some "W1" ∧
    V3.failureHandling (V3.applyClaim "W1" 0 c1exA) "refused" 3
        ((V3.claim "W1" 0 [c1exA]).2) =
      (V3.retryDelaySec ((V3.applyClaim "W1" 0 c1exA).attempt_count + 1),
       V3.retryById (V3.applyClaim "W1" 0 c1exA).domain
         ((V3.applyClaim "W1" 0 c1exA).attempt_count + 1) "refused"
         ((V3.claim "W1" 0 [c1exA]).2)) ∧
    V3.getTask ((V3.failureHandling (V3.applyClaim "W1" 0 c1exA) "refused" 3
        ((V3.claim "W1" 0 [c1exA]).2)).2) (V3.applyClaim "W1" 0 c1exA).domain =
      some { V3.applyClaim "W1" 0 c1exA with
              status := Status.pending,
              attempt_count := (V3.applyClaim "W1" 0 c1exA).attempt_count + 1,
              last_error := some "refused",
              worker_id := none } ∧
    V3.claimFilter { V3.applyClaim "W1" 0 c1exA with
        status := Status.pending,
        attempt_count := (V3.applyClaim "W1" 0 c1exA).attempt_count + 1,
        last_error := some "refused",
        worker_id := none } = true :=
  c10_v3_backoff_is_worker_sleep [c1exA] "W1" "refused" 0 3
    (V3.applyClaim "W1" 0 c1exA) (by decide) (by decide) (by decide)

end Crawler
